import Mathlib

/-!
Shallow embedding of the Property Data Resolution pipeline of PropPulse AI
(`backend/services/external_apis.py`, as installed by the patch script, plus
the Buy-Box Evaluator contract of the design document), together with proofs
of the specification claims about it.
-/

namespace PropPulse

/-! ## Character-level models of the Python string primitives -/

/-- Model of Python's `str.lower()` over the address string. -/
def pyLower (s : String) : List Char := s.toList.map Char.toLower

/-- Check whether `needle` occurs at the very start of `hay`. -/
def isPrefixC : List Char → List Char → Bool
  | [], _ => true
  | _ :: _, [] => false
  | a :: as, b :: bs => a == b && isPrefixC as bs

/-- Model of Python's substring test `needle in hay`. -/
def containsSub (needle : List Char) : List Char → Bool
  | [] => isPrefixC needle []
  | c :: t => isPrefixC needle (c :: t) || containsSub needle t

/-- Python regex `\s` on the characters it matches in these addresses. -/
def isPyWs (c : Char) : Bool :=
  c == ' ' || c == '\t' || c == '\n' || c == '\r' || c == '\x0b' || c == '\x0c'

/-- Python regex `\d` restricted to ASCII digits. -/
def isDigitC (c : Char) : Bool := '0' ≤ c && c ≤ '9'

/-- Consume a literal from the front of the input, returning the rest. -/
def dropLit : List Char → List Char → Option (List Char)
  | [], s => some s
  | _ :: _, [] => none
  | a :: as, b :: bs => if a == b then dropLit as bs else none

/-- Consume the maximal run of whitespace, as `\s*` does. -/
def dropWs : List Char → List Char
  | [] => []
  | c :: t => if isPyWs c then dropWs t else c :: t

/-- The maximal run of leading digits, as the greedy `\d+` captures. -/
def takeDigits : List Char → List Char
  | [] => []
  | c :: t => if isDigitC c then c :: takeDigits t else []

/-- Numeric value of a digit string, as Python's `int` reads it. -/
def digitsVal (ds : List Char) : Nat :=
  ds.foldl (fun acc c => 10 * acc + (c.toNat - 48)) 0

/-- One alternative `lit\s*(\d+)` of the unit regex, attempted at the
current position; returns the captured number on success. -/
def tryAlt (lit s : List Char) : Option Nat :=
  match dropLit lit s with
  | none => none
  | some rest =>
      let ds := takeDigits (dropWs rest)
      if ds.isEmpty then none else some (digitsVal ds)

/-- The three alternatives of `unit\s*(\d+)|apt\s*(\d+)|#\s*(\d+)`, tried in
regex order at one position. -/
def tryAlts (s : List Char) : Option Nat :=
  match tryAlt ("unit".toList) s with
  | some n => some n
  | none =>
      match tryAlt ("apt".toList) s with
      | some n => some n
      | none => tryAlt ("#".toList) s

/-- Model of `re.search(r'unit\s*(\d+)|apt\s*(\d+)|#\s*(\d+)', s)` followed by
`max(int(g) for non-None g in groups)`: a single match of the alternation has
exactly one non-None group, so the extracted number is the one captured by the
leftmost match, alternatives tried in regex order at each position. -/
def searchUnit : List Char → Option Nat
  | [] => none
  | c :: t =>
      match tryAlts (c :: t) with
      | some n => some n
      | none => searchUnit t

/-- The numbers captured at every match start position, scanning left to
right.  Used to state what "the largest embedded unit number" of the
specification would be. -/
def unitNumbers : List Char → List Nat
  | [] => []
  | c :: t =>
      match tryAlts (c :: t) with
      | some n => n :: unitNumbers t
      | none => unitNumbers t

/-! ## The property record as built by `external_apis.py` -/

/-- The `data_quality` sub-dictionary. -/
structure DataQuality where
  is_estimated_data : Bool
  is_free_data : Option Bool
  confidence : Nat
  sources : List String
  last_updated : Option String
  notes : Option String
deriving DecidableEq

/-- The `market_data` sub-dictionary of an estimate; `estimated_cap_rate`
6.5 is the exact rational 13/2. -/
structure MarketData where
  avg_rent_per_unit : Nat
  estimated_cap_rate : ℚ
deriving DecidableEq

/-- The property-data dictionary returned by the service. -/
structure PropertyData where
  address : String
  property_type : String
  units : Nat
  square_footage : Option Nat
  estimated_value : Nat
  market_data : Option MarketData
  data_quality : DataQuality
deriving DecidableEq

/-- The `multifamily_indicators` list of `_get_basic_property_estimates`. -/
def multifamily_indicators : List String :=
  ["apt", "apartment", "unit", "suite", "#", "complex", "towers", "plaza",
   "manor", "court", "place"]

/-- The commercial-indicator test of `_get_basic_property_estimates`. -/
def has_commercial_indicator (address_lower : List Char) : Bool :=
  containsSub ("commercial".toList) address_lower ||
  containsSub ("business".toList) address_lower ||
  containsSub ("office".toList) address_lower ||
  containsSub ("plaza".toList) address_lower

/-- The disclaimer string of every estimate. -/
def estimate_notes : String :=
  "⚠️ ESTIMATES ONLY - Based on address analysis when real data APIs unavailable. Use for initial screening only."

/-- The `data_quality` dictionary attached to every basic estimate. -/
def estimate_quality : DataQuality :=
  { is_estimated_data := true
    is_free_data := none
    confidence := 25
    sources := ["Address Analysis"]
    last_updated := some "2025-07-20"
    notes := some estimate_notes }

/-- The estimate dictionary as assembled at the end of
`_get_basic_property_estimates`. -/
def mk_estimate (address property_type : String)
    (estimated_units estimated_sqft estimated_value : Nat) : PropertyData :=
  { address := address
    property_type := property_type
    units := estimated_units
    square_footage := some estimated_sqft
    estimated_value := estimated_value
    market_data := some
      { avg_rent_per_unit := estimated_units * 18
        estimated_cap_rate := 13/2 }
    data_quality := estimate_quality }

/-- `ExternalAPIService._get_basic_property_estimates`.  The Python regex
match object is modelled by `searchUnit`; when a match exists its groups hold
exactly one number, so `max` over the groups is that number. -/
def get_basic_property_estimates (address : String) (force_estimation : Bool) :
    Option PropertyData :=
  let address_lower := pyLower address
  let is_likely_multifamily :=
    multifamily_indicators.any fun indicator =>
      containsSub indicator.toList address_lower
  let unit_match := searchUnit address_lower
  let has_unit_number := unit_match.isSome
  if is_likely_multifamily || has_unit_number then
    let estimated_units :=
      match unit_match with
      | some unit_num => min (max (unit_num + 10) 20) 100
      | none => 48
    some (mk_estimate address "Multifamily" estimated_units
      (estimated_units * 850) (estimated_units * 55000))
  else if has_commercial_indicator address_lower || force_estimation then
    if has_commercial_indicator address_lower then
      some (mk_estimate address "Commercial" 1 5000 (5000 * 250))
    else
      some (mk_estimate address "Single Family" 1 2000 450000)
  else
    none

/-- Outcome of the awaited `get_free_property_data(address)` call inside
`get_property_data`: a truthy dictionary (with its optional `data_sources`
and `last_updated` entries), a falsy result, or a raised exception. -/
inductive ProviderOutcome
  | data (payload : PropertyData) (data_sources : Option (List String))
      (last_updated : Option String)
  | noData
  | error (msg : String)

/-- The `data_quality` of the minimal structure returned when no source has
data or an exception was caught. -/
def minimal_quality (notes : String) : DataQuality :=
  { is_estimated_data := false
    is_free_data := some false
    confidence := 0
    sources := []
    last_updated := none
    notes := some notes }

/-- The minimal structure with Unknown values returned by
`get_property_data` when everything else fails. -/
def minimal_record (address notes : String) : PropertyData :=
  { address := address
    property_type := "Unknown"
    units := 0
    square_footage := none
    estimated_value := 0
    market_data := none
    data_quality := minimal_quality notes }

/-- `ExternalAPIService.get_property_data`, with the free-provider call
abstracted as an explicit outcome.  Note that the basic-estimates step is
invoked as `self._get_basic_property_estimates(address)`, i.e. with the
default `force_estimation = False`. -/
def get_property_data (address : String) (free : ProviderOutcome) :
    PropertyData :=
  match free with
  | .data payload data_sources last_updated =>
      if payload.property_type != "Unknown" then
        { payload with data_quality :=
            { is_estimated_data := false
              is_free_data := some true
              confidence := 80
              sources := data_sources.getD ["Free Property Data API"]
              last_updated := some (last_updated.getD "2025-07-20")
              notes := none } }
      else
        match get_basic_property_estimates address false with
        | some basic_estimates => basic_estimates
        | none =>
            minimal_record address "No property data available from any source"
  | .noData =>
      match get_basic_property_estimates address false with
      | some basic_estimates => basic_estimates
      | none =>
          minimal_record address "No property data available from any source"
  | .error msg =>
      minimal_record address ("Error fetching property data: " ++ msg)

/-- `ExternalAPIService.get_property_comps`: the implementation has no comps
source and returns an empty list for every address and radius. -/
def get_property_comps (_address : String) (_radius_miles : ℚ) :
    List PropertyData := []

/-! ## Buy-Box Evaluator, modelled from the spec -/

/-- Verdict variant of the Buy-Box Evaluator. -/
inductive PassFail
  | Pass
  | Fail
  | Incomplete
deriving DecidableEq

/-- The computed financial metrics consumed by the evaluator. -/
structure ComputedMetrics where
  netOperatingIncome : ℚ
  capRate : ℚ
  cashOnCashReturn : ℚ
  internalRateOfReturn : ℚ
  debtServiceCoverageRatio : ℚ
  netPresentValue : ℚ
  cashFlow : ℚ
deriving DecidableEq

/-- The user-owned investment criteria ("buy box"). -/
structure InvestmentCriteria where
  minCapRate : ℚ
  minCashOnCash : ℚ
  minIRR : ℚ
  minDSCR : ℚ
  minPrice : ℚ
  maxPrice : ℚ
  minUnits : Nat
  maxUnits : Nat
deriving DecidableEq

/-- Outcome of one buy-box evaluation. -/
structure BuyBoxVerdict where
  passFail : PassFail
  score : Nat
deriving DecidableEq

/-- Normalized weighted contribution of one financial ratio to the score. -/
def criterionScore (actual threshold weight : ℚ) : ℚ :=
  min 1 (actual / threshold) * weight

/-- Modelled from the spec: the Buy-Box Evaluator itself lives in the backend
request handler (`main.py`), which is not among the provided source files;
only its result shape (`DealAnalysis` in `frontend/src/lib/api.ts`) is.
Following the specification's words: any violated hard threshold yields
`Fail`, otherwise `Pass`; the score is the weighted sum of
`min(1, actual/threshold)` terms with weights 25/25/30/20, rounded and kept
in [0, 100]; and when `ComputedMetrics` is absent the verdict is
`Incomplete` with score 0 and no exception. -/
def evaluate_buy_box (metrics : Option ComputedMetrics)
    (record : PropertyData) (price : ℚ) (criteria : InvestmentCriteria) :
    BuyBoxVerdict :=
  match metrics with
  | none => { passFail := .Incomplete, score := 0 }
  | some m =>
      let hardFail : Bool :=
        decide (m.capRate < criteria.minCapRate) ||
        decide (m.cashOnCashReturn < criteria.minCashOnCash) ||
        decide (m.internalRateOfReturn < criteria.minIRR) ||
        decide (m.debtServiceCoverageRatio < criteria.minDSCR) ||
        decide (price < criteria.minPrice) ||
        decide (criteria.maxPrice < price) ||
        decide (record.units < criteria.minUnits) ||
        decide (criteria.maxUnits < record.units)
      let total : ℚ :=
        criterionScore m.capRate criteria.minCapRate 25 +
        criterionScore m.cashOnCashReturn criteria.minCashOnCash 25 +
        criterionScore m.internalRateOfReturn criteria.minIRR 30 +
        criterionScore m.debtServiceCoverageRatio criteria.minDSCR 20
      { passFail := if hardFail then .Fail else .Pass
        score := (min 100 (max 0 (round total))).toNat }

/-! ## Helper lemmas -/

/-- The single number captured by `re.search` is the head of the list of
numbers captured at every match start position. -/
theorem searchUnit_eq_head (s : List Char) :
    searchUnit s = (unitNumbers s).head? := by
  induction s with
  | nil => rfl
  | cons c t ih =>
      simp only [searchUnit, unitNumbers]
      cases h : tryAlts (c :: t) with
      | some n => simp
      | none => simpa using ih

/-- Every record produced by `_get_basic_property_estimates` carries the
estimator's `data_quality` dictionary. -/
theorem basic_estimates_data_quality (address : String) (force : Bool)
    (rec : PropertyData)
    (h : get_basic_property_estimates address force = some rec) :
    rec.data_quality = estimate_quality := by
  simp only [get_basic_property_estimates] at h
  split at h
  · injection h with h
    subst h
    rfl
  · split at h
    · split at h <;> (injection h with h; subst h; rfl)
    · exact Option.noConfusion h

/-- Every resolver output carries one of three data-quality shapes: the
free-API quality (confidence 80, not estimated), the estimator quality, or a
minimal quality (confidence 0, empty sources, not estimated). -/
theorem resolver_quality_cases (address : String) (free : ProviderOutcome) :
    ((get_property_data address free).data_quality.is_estimated_data = false ∧
     (get_property_data address free).data_quality.confidence = 80) ∨
    (get_property_data address free).data_quality = estimate_quality ∨
    ((get_property_data address free).data_quality.is_estimated_data = false ∧
     (get_property_data address free).data_quality.confidence = 0 ∧
     (get_property_data address free).data_quality.sources = []) := by
  cases free with
  | data payload data_sources last_updated =>
      simp only [get_property_data]
      split
      · exact Or.inl ⟨rfl, rfl⟩
      · cases h : get_basic_property_estimates address false with
        | some rec =>
            exact Or.inr (Or.inl (basic_estimates_data_quality address false rec h))
        | none => exact Or.inr (Or.inr ⟨rfl, rfl, rfl⟩)
  | noData =>
      simp only [get_property_data]
      cases h : get_basic_property_estimates address false with
      | some rec =>
          exact Or.inr (Or.inl (basic_estimates_data_quality address false rec h))
      | none => exact Or.inr (Or.inr ⟨rfl, rfl, rfl⟩)
  | error msg => exact Or.inr (Or.inr ⟨rfl, rfl, rfl⟩)

/-! ## Claim theorems -/

/-- C1, counterexample: the claim says the step-4 minimal record is never
returned because the waterfall forces estimation.  In `get_property_data`
the basic-estimates step is invoked without `force_estimation`, so when both
providers return no data the address `"123 Main St, Anytown USA"` (no lexical
indicators) receives exactly the minimal record: `propertyType = Unknown`,
`confidence = 0`, empty provenance. -/
theorem resolver_returns_minimal_for_plain_address :
    get_property_data "123 Main St, Anytown USA" .noData =
      minimal_record "123 Main St, Anytown USA"
        "No property data available from any source" ∧
    (get_property_data "123 Main St, Anytown USA" .noData).property_type =
      "Unknown" ∧
    (get_property_data "123 Main St, Anytown USA"
      .noData).data_quality.confidence = 0 ∧
    (get_property_data "123 Main St, Anytown USA"
      .noData).data_quality.sources = [] :=
  ⟨rfl, rfl, rfl, rfl⟩

/-- C1, amended: when both providers return no data, the Confidence Estimator
is invoked with `forceEstimation = false`; an address with a multifamily
indicator, a unit-number pattern, or a commercial indicator still gets an
estimated record (confidence 25), but an address with none of these receives
the step-4 minimal record (`propertyType = Unknown`, `confidence = 0`, empty
provenance). -/
theorem resolver_estimates_without_forcing (address : String) :
    if (multifamily_indicators.any fun indicator =>
          containsSub indicator.toList (pyLower address)) ||
       (searchUnit (pyLower address)).isSome ||
       has_commercial_indicator (pyLower address) then
      (get_property_data address .noData).data_quality.is_estimated_data =
        true ∧
      (get_property_data address .noData).data_quality.confidence = 25
    else
      get_property_data address .noData =
        minimal_record address "No property data available from any source" := by
  simp only [get_property_data, get_basic_property_estimates]
  generalize (multifamily_indicators.any fun indicator =>
      containsSub indicator.toList (pyLower address)) = A
  generalize searchUnit (pyLower address) = U
  generalize has_commercial_indicator (pyLower address) = B
  cases A <;> cases U <;> cases B <;>
    simp [mk_estimate, estimate_quality]

/-- C2: for every address and every provider outcome (including a raised
exception) the resolver returns exactly one record whose confidence lies in
[0, 100]; the exception fallback has confidence 0. -/
theorem resolver_confidence_in_range (address : String)
    (free : ProviderOutcome) (msg : String) :
    (get_property_data address free).data_quality.confidence ≤ 100 ∧
    (get_property_data address
      (.error msg)).data_quality.confidence = 0 := by
  constructor
  · rcases resolver_quality_cases address free with ⟨_, h80⟩ | hq | ⟨_, h0, _⟩
    · omega
    · rw [hq]
      decide
    · omega
  · rfl

/-- C3: every Multifamily record of the Confidence Estimator has
`units = min (max (hint + 10) 20) 100` when a unit hint was extracted and 48
otherwise, hence `20 ≤ units ≤ 100`, with `squareFootage = units * 850`,
`estimatedValue = units * 55000`, `avgRentPerUnit = units * 18`,
`capRateEstimate = 6.5` and `confidence = 25`. -/
theorem multifamily_estimate_fields (address : String) (force : Bool)
    (rec : PropertyData)
    (hrec : get_basic_property_estimates address force = some rec)
    (htype : rec.property_type = "Multifamily") :
    rec.units = (match searchUnit (pyLower address) with
                 | some u => min (max (u + 10) 20) 100
                 | none => 48) ∧
    20 ≤ rec.units ∧ rec.units ≤ 100 ∧
    rec.square_footage = some (rec.units * 850) ∧
    rec.estimated_value = rec.units * 55000 ∧
    rec.market_data = some { avg_rent_per_unit := rec.units * 18,
                             estimated_cap_rate := 13/2 } ∧
    rec.data_quality.confidence = 25 := by
  simp only [get_basic_property_estimates] at hrec
  split at hrec
  · injection hrec with hrec
    subst hrec
    refine ⟨rfl, ?_, ?_, rfl, rfl, rfl, rfl⟩ <;>
      rcases hu : searchUnit (pyLower address) with _ | u <;>
        simp [mk_estimate, hu]
  · split at hrec
    · split at hrec
      · injection hrec with hrec
        subst hrec
        have hx : ("Commercial" : String) = "Multifamily" := htype
        exact absurd hx (by decide)
      · injection hrec with hrec
        subst hrec
        have hx : ("Single Family" : String) = "Multifamily" := htype
        exact absurd hx (by decide)
    · exact Option.noConfusion hrec

/-- C3 witness: for `"Apt 4, Plaza Towers"` the extracted hint is 4, so the
estimator yields 20 units and the concrete field values. -/
theorem multifamily_estimate_fields_witness :
    (mk_estimate "Apt 4, Plaza Towers" "Multifamily" 20 (20 * 850)
      (20 * 55000)).units =
      (match searchUnit (pyLower "Apt 4, Plaza Towers") with
       | some u => min (max (u + 10) 20) 100
       | none => 48) ∧
    20 ≤ (mk_estimate "Apt 4, Plaza Towers" "Multifamily" 20 (20 * 850)
      (20 * 55000)).units ∧
    (mk_estimate "Apt 4, Plaza Towers" "Multifamily" 20 (20 * 850)
      (20 * 55000)).units ≤ 100 ∧
    (mk_estimate "Apt 4, Plaza Towers" "Multifamily" 20 (20 * 850)
      (20 * 55000)).square_footage =
      some ((mk_estimate "Apt 4, Plaza Towers" "Multifamily" 20 (20 * 850)
        (20 * 55000)).units * 850) ∧
    (mk_estimate "Apt 4, Plaza Towers" "Multifamily" 20 (20 * 850)
      (20 * 55000)).estimated_value =
      (mk_estimate "Apt 4, Plaza Towers" "Multifamily" 20 (20 * 850)
        (20 * 55000)).units * 55000 ∧
    (mk_estimate "Apt 4, Plaza Towers" "Multifamily" 20 (20 * 850)
      (20 * 55000)).market_data =
      some { avg_rent_per_unit := (mk_estimate "Apt 4, Plaza Towers"
               "Multifamily" 20 (20 * 850) (20 * 55000)).units * 18,
             estimated_cap_rate := 13/2 } ∧
    (mk_estimate "Apt 4, Plaza Towers" "Multifamily" 20 (20 * 850)
      (20 * 55000)).data_quality.confidence = 25 :=
  multifamily_estimate_fields "Apt 4, Plaza Towers" false
    (mk_estimate "Apt 4, Plaza Towers" "Multifamily" 20 (20 * 850)
      (20 * 55000)) rfl rfl

/-- C4: every record the resolver returns satisfies the confidence
invariant: estimated records have confidence at most 30, and non-estimated
records with non-empty provenance have confidence at least 60. -/
theorem record_confidence_invariant (address : String)
    (free : ProviderOutcome) :
    ((get_property_data address free).data_quality.is_estimated_data = true →
      (get_property_data address free).data_quality.confidence ≤ 30) ∧
    ((get_property_data address free).data_quality.is_estimated_data = false →
      (get_property_data address free).data_quality.sources ≠ [] →
      60 ≤ (get_property_data address free).data_quality.confidence) := by
  rcases resolver_quality_cases address free with
    ⟨hest, hconf⟩ | hq | ⟨hest, hconf, hsrc⟩
  · constructor
    · intro h
      rw [hest] at h
      exact absurd h (by decide)
    · intro _ _
      omega
  · constructor
    · intro _
      rw [hq]
      decide
    · intro hfalse _
      rw [hq] at hfalse
      exact absurd hfalse (by decide)
  · constructor
    · intro h
      rw [hest] at h
      exact absurd h (by decide)
    · intro _ hsources
      exact absurd hsrc hsources

/-- C4 witness: the estimated record for `"Suite 300 Tower Complex"` has
confidence 25 ≤ 30. -/
theorem record_confidence_invariant_witness :
    (get_property_data "Suite 300 Tower Complex"
      .noData).data_quality.is_estimated_data = true ∧
    (get_property_data "Suite 300 Tower Complex"
      .noData).data_quality.confidence ≤ 30 :=
  ⟨rfl, (record_confidence_invariant "Suite 300 Tower Complex" .noData).1 rfl⟩

/-- C5: when `ComputedMetrics` is absent the Buy-Box Evaluator returns
`Incomplete` with score 0 for every property record, price and criteria set,
and never `Pass` or `Fail`. -/
theorem buy_box_incomplete_without_metrics (record : PropertyData)
    (price : ℚ) (criteria : InvestmentCriteria) :
    evaluate_buy_box none record price criteria =
      { passFail := PassFail.Incomplete, score := 0 } ∧
    (evaluate_buy_box none record price criteria).passFail ≠ PassFail.Pass ∧
    (evaluate_buy_box none record price criteria).passFail ≠ PassFail.Fail :=
  ⟨rfl, fun h => PassFail.noConfusion h, fun h => PassFail.noConfusion h⟩

/-- C6, counterexample: the claim says the extracted unit hint is the largest
embedded unit number.  For `"unit 5 apt 12, LA"` the embedded numbers are
5 and 12, the largest is 12 (which would give 22 units), yet `re.search`
yields the leftmost match `unit 5`, so the estimator uses hint 5 and
produces 20 units. -/
theorem unit_hint_counterexample :
    unitNumbers (pyLower "unit 5 apt 12, LA") = [5, 12] ∧
    searchUnit (pyLower "unit 5 apt 12, LA") = some 5 ∧
    (get_basic_property_estimates "unit 5 apt 12, LA" false).map
      (fun rec => rec.units) = some (min (max (5 + 10) 20) 100) ∧
    min (max (5 + 10) 20) 100 = 20 ∧
    min (max (12 + 10) 20) 100 = 22 ∧
    (20 : Nat) ≠ 22 :=
  ⟨by decide, by decide, rfl, by decide, by decide, by decide⟩

/-- C6, amended: for every Multifamily-classified address with at least one
embedded unit-number pattern, the extracted hint is the number of the
leftmost (first) embedded pattern, and the unit count is that hint clamped
via `min (max (hint + 10) 20) 100`. -/
theorem unit_hint_first_match (address : String) (rec : PropertyData)
    (u : Nat)
    (hrec : get_basic_property_estimates address false = some rec)
    (htype : rec.property_type = "Multifamily")
    (hu : (unitNumbers (pyLower address)).head? = some u) :
    rec.units = min (max (u + 10) 20) 100 := by
  have hsearch : searchUnit (pyLower address) = some u := by
    rw [searchUnit_eq_head]
    exact hu
  simp only [get_basic_property_estimates] at hrec
  split at hrec
  · injection hrec with hrec
    subst hrec
    simp [mk_estimate, hsearch]
  · split at hrec
    · split at hrec
      · injection hrec with hrec
        subst hrec
        have hx : ("Commercial" : String) = "Multifamily" := htype
        exact absurd hx (by decide)
      · injection hrec with hrec
        subst hrec
        have hx : ("Single Family" : String) = "Multifamily" := htype
        exact absurd hx (by decide)
    · exact Option.noConfusion hrec

/-- C6 witness: for `"unit 5 apt 12, LA"` the first embedded number is 5 and
the estimated unit count is `min (max (5 + 10) 20) 100 = 20`. -/
theorem unit_hint_first_match_witness :
    (mk_estimate "unit 5 apt 12, LA" "Multifamily" 20 (20 * 850)
      (20 * 55000)).units = min (max (5 + 10) 20) 100 :=
  unit_hint_first_match "unit 5 apt 12, LA"
    (mk_estimate "unit 5 apt 12, LA" "Multifamily" 20 (20 * 850) (20 * 55000))
    5 rfl rfl (by decide)

/-- C7: forced estimation on an address with no multifamily indicator, no
unit-number pattern and no commercial indicator yields the Single Family
estimate with 1 unit, 2000 square feet and value 450000. -/
theorem forced_estimation_single_family (address : String)
    (hmf : (multifamily_indicators.any fun indicator =>
        containsSub indicator.toList (pyLower address)) = false)
    (hu : searchUnit (pyLower address) = none)
    (hc : has_commercial_indicator (pyLower address) = false) :
    get_basic_property_estimates address true =
      some (mk_estimate address "Single Family" 1 2000 450000) := by
  simp only [get_basic_property_estimates, hmf, hu, hc]
  simp

/-- C7 witness: the specification's scenario address
`"123 Main St, Anytown USA"`. -/
theorem forced_estimation_single_family_witness :
    get_basic_property_estimates "123 Main St, Anytown USA" true =
      some (mk_estimate "123 Main St, Anytown USA" "Single Family" 1 2000
        450000) :=
  forced_estimation_single_family "123 Main St, Anytown USA" (by decide)
    (by decide) (by decide)

/-- C8: an address carrying both a multifamily indicator and a commercial
indicator classifies as Multifamily — the multifamily branch is tested
first. -/
theorem multifamily_priority_over_commercial (address : String) (force : Bool)
    (hm : (multifamily_indicators.any fun indicator =>
        containsSub indicator.toList (pyLower address)) = true)
    ( _hc : has_commercial_indicator (pyLower address) = true) :
    (get_basic_property_estimates address force).map
      (fun rec => rec.property_type) = some "Multifamily" := by
  simp only [get_basic_property_estimates, hm]
  simp [mk_estimate]

/-- C8 witness: `"Plaza Apartment, Dallas"` carries the multifamily
indicators `apartment` and `plaza` and the commercial indicator `plaza`. -/
theorem multifamily_priority_over_commercial_witness :
    (get_basic_property_estimates "Plaza Apartment, Dallas" false).map
      (fun rec => rec.property_type) = some "Multifamily" :=
  multifamily_priority_over_commercial "Plaza Apartment, Dallas" false
    (by decide) (by decide)

/-- C9: whenever the estimator returns a Commercial record, the lower-cased
address contains `commercial`, `business` or `office`; `plaza` alone cannot
produce Commercial because `plaza` is also a multifamily indicator and the
multifamily branch claims it first. -/
theorem commercial_requires_commercial_token (address : String)
    (force : Bool) (rec : PropertyData)
    (hrec : get_basic_property_estimates address force = some rec)
    (htype : rec.property_type = "Commercial") :
    (containsSub ("commercial".toList) (pyLower address) ||
     containsSub ("business".toList) (pyLower address) ||
     containsSub ("office".toList) (pyLower address)) = true := by
  simp only [get_basic_property_estimates] at hrec
  split at hrec
  · injection hrec with hrec
    subst hrec
    have hx : ("Multifamily" : String) = "Commercial" := htype
    exact absurd hx (by decide)
  · rename_i hnotmf
    split at hrec
    · split at hrec
      · rename_i hcomm
        have hnm : (multifamily_indicators.any fun indicator =>
            containsSub indicator.toList (pyLower address)) = false := by
          rcases Bool.eq_false_or_eq_true (multifamily_indicators.any
            fun indicator => containsSub indicator.toList (pyLower address))
            with h | h
          · exact absurd (by simp only [h, Bool.true_or]) hnotmf
          · exact h
        have hplaza :
            containsSub ("plaza".toList) (pyLower address) = false := by
          rcases Bool.eq_false_or_eq_true
              (containsSub ("plaza".toList) (pyLower address)) with hp | hp
          · exfalso
            have hany : (multifamily_indicators.any fun indicator =>
                containsSub indicator.toList (pyLower address)) = true := by
              refine List.any_eq_true.mpr ⟨"plaza", ?_, hp⟩
              decide
            rw [hany] at hnm
            exact Bool.noConfusion hnm
          · exact hp
        have hcomm' := hcomm
        simp only [has_commercial_indicator, hplaza, Bool.or_false] at hcomm'
        exact hcomm'
      · injection hrec with hrec
        subst hrec
        have hx : ("Single Family" : String) = "Commercial" := htype
        exact absurd hx (by decide)
    · exact Option.noConfusion hrec

/-- C9 witness: `"500 Office Park Dr"` yields a Commercial record and
contains the token `office`. -/
theorem commercial_requires_commercial_token_witness :
    (containsSub ("commercial".toList) (pyLower "500 Office Park Dr") ||
     containsSub ("business".toList) (pyLower "500 Office Park Dr") ||
     containsSub ("office".toList) (pyLower "500 Office Park Dr")) = true :=
  commercial_requires_commercial_token "500 Office Park Dr" false
    (mk_estimate "500 Office Park Dr" "Commercial" 1 5000 (5000 * 250))
    rfl rfl

/-- C10: `get_property_comps` returns the empty list for every address and
every radius — comparable-property data is never populated. -/
theorem property_comps_empty :
    ∀ (address : String) (radius_miles : ℚ),
      get_property_comps address radius_miles = [] :=
  fun _ _ => rfl

end PropPulse
